import Mathlib

/-
Shallow embedding of `src/listings/ch17-async-await/listing-17-04/src/main.rs`.

The program reads a URL from the command line, fetches the page, parses the
HTML and prints the content of the first `title` element (or a "no title"
line).  The HTTP client (`trpl::get(url).await.text().await`) and the HTML
parser (`trpl::Html::parse`, `select_first`, `inner_html`) are external
black-box collaborators that are not part of this repository's sources, so
they are modelled here:

* the fetch capability is an arbitrary function `String → String` mapping a
  URL to the full response body (the program only ever observes the complete
  body text);
* the HTML capability is modelled from the spec (see `scanAux`,
  `decodeEntities`, `Html.parse`, `Html.select_first`, `Element.inner_html`
  below).

The Rust code being embedded:

  async fn main() {
      let args: Vec<String> = std::env::args().collect();
      let url = &args[1];
      match page_title(url).await {
          Some(title) => println!("The title for ... was ..."),
          None => println!("... had no title"),
      }
  }

  async fn page_title(url: &str) -> Option<String> {
      let response_text = trpl::get(url).await.text().await;
      Html::parse(&response_text)
          .select_first("title")
          .map(|title_element| title_element.inner_html())
  }
-/

namespace Listing1704

/-- Modelled from the spec: the HTML parser's entity decoding.  The parser
capability is external to the repository (only its caller `page_title` is in
`src/`); the spec states that `<title>A &amp; B</title>` yields the decoded
text content, so the basic named character references `&amp;`, `&lt;` and
`&gt;` are decoded to `&`, `<` and `>`. -/
def decodeEntities : List Char → List Char
  | '&' :: 'a' :: 'm' :: 'p' :: ';' :: rest => '&' :: decodeEntities rest
  | '&' :: 'l' :: 't' :: ';' :: rest => '<' :: decodeEntities rest
  | '&' :: 'g' :: 't' :: ';' :: rest => '>' :: decodeEntities rest
  | c :: rest => c :: decodeEntities rest
  | [] => []

/-- Modelled from the spec: a single left-to-right scan over the HTML text
collecting the raw inner content of every `title` element, in document
order.  The second argument is `none` outside a `title` element and
`some acc` (the inner content read so far, reversed) inside one.  Inside a
`title` element everything up to the matching close tag is raw content (the
HTML `title` element holds raw text); an unterminated `title` element runs
to the end of input. -/
def scanAux : List Char → Option (List Char) → List (List Char)
  | '<' :: 't' :: 'i' :: 't' :: 'l' :: 'e' :: '>' :: rest, none =>
      scanAux rest (some [])
  | '<' :: '/' :: 't' :: 'i' :: 't' :: 'l' :: 'e' :: '>' :: rest, some acc =>
      acc.reverse :: scanAux rest none
  | _ :: rest, none => scanAux rest none
  | c :: rest, some acc => scanAux rest (some (c :: acc))
  | [], none => []
  | [], some acc => [acc.reverse]

/-- Modelled from the spec: the parsed document, reduced to the data the
program queries — the decoded inner contents of its `title` elements, in
document order. -/
structure Html where
  titles : List String
deriving DecidableEq

/-- Modelled from the spec: `Html::parse` builds the document from the
complete response text. -/
def Html.parse (s : String) : Html :=
  ⟨(scanAux s.toList none).map fun cs => (decodeEntities cs).asString⟩

/-- Modelled from the spec: an element returned by `select_first`, reduced
to the data the program extracts from it. -/
structure Element where
  content : String
deriving DecidableEq

/-- Modelled from the spec: `element.inner_html()` returns the element's
inner content as the parser defines it (decoded text for a `title`). -/
def Element.inner_html (e : Element) : String := e.content

/-- Modelled from the spec: `document.select_first(selector)` returns the
first element matching the selector, if any.  The program only ever uses the
selector `"title"`; the model covers exactly that selector. -/
def Html.select_first (doc : Html) (selector : String) : Option Element :=
  if selector = "title" then doc.titles.head?.map Element.mk else none

/-- Embedding of `page_title` from `src/.../main.rs` lines 17–22.  `fetch`
is the black-box network capability (URL to complete response body). -/
def page_title (fetch : String → String) (url : String) : Option String :=
  let response_text := fetch url
  ((Html.parse response_text).select_first "title").map Element.inner_html

/-- `page_title` with every collaborator kept abstract: `parse`,
`select_first` and `inner_html` are arbitrary total functions over arbitrary
document/element types, exactly mirroring the source's structure. -/
def page_titleGen {Doc Elem : Type} (fetch : String → String)
    (parse : String → Doc) (select_first : Doc → String → Option Elem)
    (inner_html : Elem → String) (url : String) : Option String :=
  let response_text := fetch url
  (select_first (parse response_text) "title").map inner_html

/-- `page_title` instrumented with the list of URLs it fetches, in order
(the source performs exactly one fetch, of `url`). -/
def page_titleTr (fetch : String → String) (url : String) :
    Option String × List String :=
  let response_text := fetch url
  (((Html.parse response_text).select_first "title").map Element.inner_html,
   [url])

/-- The failure `main` can hit: `args[1]` on a too-short argument vector. -/
inductive Panic where
  | indexOutOfBounds
deriving DecidableEq

/-- Outcome of a run: a panic, or normal completion with the list of lines
printed to standard output. -/
inductive RunOutcome where
  | panicked : Panic → RunOutcome
  | ok : List String → RunOutcome
deriving DecidableEq

/-- A run's outcome together with the list of URLs fetched, in order. -/
structure RunResult where
  outcome : RunOutcome
  fetched : List String
deriving DecidableEq

/-- Embedding of `main` from `src/.../main.rs` lines 6–15.  `args` is the
full argument vector (`std::env::args().collect()`, position 0 being the
program name); `args[1]` out of bounds panics before anything else runs. -/
def mainRun (fetch : String → String) (args : List String) : RunResult :=
  match args[1]? with
  | none => ⟨.panicked .indexOutOfBounds, []⟩
  | some url =>
    match page_titleTr fetch url with
    | (some title, tr) =>
        ⟨.ok ["The title for " ++ url ++ " was " ++ title], tr⟩
    | (none, tr) => ⟨.ok [url ++ " had no title"], tr⟩

/-- The pure fetch-free tail of `page_title`: parse the complete body, then
query it. -/
def titleFromBody (body : String) : Option String :=
  ((Html.parse body).select_first "title").map Element.inner_html

/-- Substring test used to state claims phrased as "the HTML contains ...". -/
def startsWithSeq : List Char → List Char → Bool
  | [], _ => true
  | _ :: _, [] => false
  | p :: ps, c :: cs => p == c && startsWithSeq ps cs

/-- `containsSeq pat l` holds when `pat` occurs contiguously in `l`. -/
def containsSeq (pat : List Char) : List Char → Bool
  | [] => pat.isEmpty
  | l@(_ :: rest) => startsWithSeq pat l || containsSeq pat rest

/-! Helper lemmas shared by the claim theorems. -/

theorem page_title_unfold (fetch : String → String) (url : String) :
    page_title fetch url =
      ((Html.parse (fetch url)).select_first "title").map Element.inner_html :=
  rfl

theorem select_first_title (doc : Html) :
    doc.select_first "title" = doc.titles.head?.map Element.mk := by
  simp [Html.select_first]

theorem page_title_eq_head (fetch : String → String) (url : String) :
    page_title fetch url = (Html.parse (fetch url)).titles.head? := by
  rw [page_title_unfold, select_first_title]
  cases (Html.parse (fetch url)).titles <;> simp [Element.inner_html]

theorem page_titleTr_eq (fetch : String → String) (url : String) :
    page_titleTr fetch url = (page_title fetch url, [url]) :=
  rfl

theorem str_append_assoc : ∀ (a b c : String), a ++ b ++ c = a ++ (b ++ c)
  | ⟨a⟩, ⟨b⟩, ⟨c⟩ => congrArg String.mk (List.append_assoc a b c)

theorem mainRun_none (fetch : String → String) (args : List String)
    (h : args[1]? = none) :
    mainRun fetch args = ⟨.panicked .indexOutOfBounds, []⟩ := by
  unfold mainRun
  rw [h]

theorem mainRun_some (fetch : String → String) (args : List String)
    (url : String) (h : args[1]? = some url) :
    mainRun fetch args =
      match (Html.parse (fetch url)).titles.head? with
      | some title => ⟨.ok ["The title for " ++ url ++ " was " ++ title], [url]⟩
      | none => ⟨.ok [url ++ " had no title"], [url]⟩ := by
  unfold mainRun
  rw [h]
  simp only [page_titleTr_eq, page_title_eq_head]
  cases (Html.parse (fetch url)).titles.head? <;> rfl

/-! Concrete fetch functions used as fixtures. -/

def fetchExample : String → String := fun _ => "<title>Example</title>"

def fetchShadowed : String → String :=
  fun _ => "<title>Other</title><title>Example</title>"

def fetchTwoTitles : String → String :=
  fun _ => "<title>First</title><title>Second</title>"

def fetchPlain : String → String := fun _ => "<p>hello</p>"

def fetchAmp : String → String := fun _ => "<title>A &amp; B</title>"

/-! The claim theorems. -/

/-- Claim C1: for every URL and fetched body, `page_title` returns a present
optional exactly when the parsed document contains a `title` element, and an
absent one when no `title` element is found. -/
theorem page_title_present_iff_title_element (fetch : String → String)
    (url : String) :
    (page_title fetch url).isSome = true ↔
      (Html.parse (fetch url)).titles ≠ [] := by
  rw [page_title_eq_head]
  cases (Html.parse (fetch url)).titles <;> simp

/-- Claim C2 as stated is false: a fetched body can contain the substring
`<title>Example</title>` while an earlier `title` element wins under
first-match semantics, so the printed line reports `Other`, not `Example`. -/
theorem main_contains_example_counterexample :
    containsSeq ("<title>Example</title>".toList)
        ((fetchShadowed "http://u").toList) = true ∧
    (mainRun fetchShadowed ["prog", "http://u"]).outcome =
      .ok ["The title for http://u was Other"] ∧
    (mainRun fetchShadowed ["prog", "http://u"]).outcome ≠
      .ok ["The title for http://u was Example"] :=
  ⟨by decide, by decide, by decide⟩

/-- Claim C2 (amended): for every invocation whose first command-line
argument is `url`, if the FIRST `title` element of the fetched HTML has
inner content `Example`, the program prints exactly the line
`The title for <url> was Example`. -/
theorem main_prints_example_for_first_title (fetch : String → String)
    (args : List String) (url : String) (h : args[1]? = some url)
    (hfirst : (Html.parse (fetch url)).titles.head? = some "Example") :
    (mainRun fetch args).outcome =
      .ok ["The title for " ++ url ++ " was Example"] := by
  rw [mainRun_some fetch args url h, hfirst]
  show RunOutcome.ok ["The title for " ++ url ++ " was " ++ "Example"] = _
  rw [str_append_assoc]
  rfl

theorem main_prints_example_witness :
    (mainRun fetchExample ["prog", "http://u"]).outcome =
      .ok ["The title for http://u was Example"] :=
  main_prints_example_for_first_title fetchExample ["prog", "http://u"]
    "http://u" (by decide) (by decide)

/-- Claim C3: for every invocation whose first command-line argument is
`url`, if the fetched HTML contains no `title` element, the program prints
exactly the line `<url> had no title`. -/
theorem main_prints_no_title (fetch : String → String) (args : List String)
    (url : String) (h : args[1]? = some url)
    (hnone : (Html.parse (fetch url)).titles = []) :
    (mainRun fetch args).outcome = .ok [url ++ " had no title"] := by
  rw [mainRun_some fetch args url h, hnone]
  rfl

theorem main_prints_no_title_witness :
    (mainRun fetchPlain ["prog", "http://u"]).outcome =
      .ok ["http://u had no title"] :=
  main_prints_no_title fetchPlain ["prog", "http://u"] "http://u"
    (by decide) (by decide)

/-- Claim C4: whenever the parsed document's `title` elements are
`t :: rest`, `page_title` returns `some t` — only the first `title`
element's inner content is used, and the later elements `rest` never
influence the result (the conclusion does not mention `rest`). -/
theorem page_title_first_match (fetch : String → String) (url t : String)
    (rest : List String)
    (h : (Html.parse (fetch url)).titles = t :: rest) :
    page_title fetch url = some t := by
  rw [page_title_eq_head, h]
  rfl

theorem page_title_first_match_witness :
    page_title fetchTwoTitles "http://u" = some "First" :=
  page_title_first_match fetchTwoTitles "http://u" "First" ["Second"]
    (by decide)

/-- Claim C5: invoked with an argument vector holding at most the program
name, the run ends in the index-out-of-bounds panic and the list of fetched
URLs is empty — no fetch is ever attempted. -/
theorem main_missing_arg_no_fetch (fetch : String → String)
    (args : List String) (h : args.length ≤ 1) :
    mainRun fetch args = ⟨.panicked .indexOutOfBounds, []⟩ :=
  mainRun_none fetch args (List.getElem?_eq_none h)

theorem main_missing_arg_no_fetch_witness :
    mainRun (fun _ => "<title>Example</title>") ["prog"] =
      ⟨.panicked .indexOutOfBounds, []⟩ :=
  main_missing_arg_no_fetch (fun _ => "<title>Example</title>") ["prog"]
    (by decide)

/-- Claim C6: when the fetched body is `<title>A &amp; B</title>`, the
title returned is the entity-decoded text content `A & B`, not the raw
source text between the tags. -/
theorem page_title_decodes_entities (fetch : String → String) (url : String)
    (h : fetch url = "<title>A &amp; B</title>") :
    page_title fetch url = some "A & B" := by
  rw [page_title_eq_head, h]
  decide

theorem page_title_decodes_entities_witness :
    page_title fetchAmp "http://u" = some "A & B" :=
  page_title_decodes_entities fetchAmp "http://u" rfl

/-- Claim C7: `page_title` factors through the completely fetched body —
the parsing stage and the returned title are a function of the full
response text `fetch url` alone, so parsing never observes a partial body
and the title is fully determined once parsing is done. -/
theorem page_title_fetch_then_parse (fetch : String → String)
    (url : String) :
    page_title fetch url = titleFromBody (fetch url) :=
  rfl

/-- Claim C8: on every run that completes without a panic — with or without
a title — exactly one line is printed. -/
theorem main_prints_exactly_one_line (fetch : String → String)
    (args : List String) (lines : List String)
    (h : (mainRun fetch args).outcome = .ok lines) :
    lines.length = 1 := by
  cases h1 : args[1]? with
  | none =>
      rw [mainRun_none fetch args h1] at h
      cases h
  | some url =>
      rw [mainRun_some fetch args url h1] at h
      cases hh : (Html.parse (fetch url)).titles.head? with
      | none =>
          rw [hh] at h
          injection h with h2
          rw [← h2]
          rfl
      | some t =>
          rw [hh] at h
          injection h with h2
          rw [← h2]
          rfl

theorem main_prints_exactly_one_line_witness :
    (mainRun fetchExample ["prog", "http://u"]).outcome =
      .ok ["The title for http://u was Example"] ∧
    (["The title for http://u was Example"] : List String).length = 1 :=
  ⟨by decide,
   main_prints_exactly_one_line fetchExample ["prog", "http://u"]
     ["The title for http://u was Example"] (by decide)⟩

/-- Claim C9: arguments beyond position 1 are ignored — two invocations
whose argument vectors agree at position 1 and whose fetched bodies for
that URL agree produce identical run results. -/
theorem main_ignores_extra_args (f g : String → String)
    (args1 args2 : List String) (hargs : args1[1]? = args2[1]?)
    (hfetch : ∀ u, args1[1]? = some u → f u = g u) :
    mainRun f args1 = mainRun g args2 := by
  cases h1 : args1[1]? with
  | none =>
      rw [mainRun_none f args1 h1, mainRun_none g args2 (hargs ▸ h1)]
  | some url =>
      rw [mainRun_some f args1 url h1, mainRun_some g args2 url (hargs ▸ h1),
        hfetch url h1]

theorem main_ignores_extra_args_witness :
    mainRun fetchExample ["prog", "http://u"] =
      mainRun fetchExample ["prog", "http://u", "--verbose", "junk"] :=
  main_ignores_extra_args fetchExample fetchExample
    ["prog", "http://u"] ["prog", "http://u", "--verbose", "junk"]
    (by decide) (fun _ _ => rfl)

/-- Claim C10: with fetch, parse, select-first and inner-html abstract
total collaborators, `page_titleGen` is total over its inputs and handles
the no-title case through the optional value: when selection yields nothing
the result is `none` (map on `none` yields `none`), and when selection
yields an element the result is its inner html — no other outcome exists. -/
theorem page_title_total_no_panic {Doc Elem : Type} (fetch : String → String)
    (parse : String → Doc) (sf : Doc → String → Option Elem)
    (ih : Elem → String) (url : String) :
    (sf (parse (fetch url)) "title" = none →
      page_titleGen fetch parse sf ih url = none) ∧
    (∀ e, sf (parse (fetch url)) "title" = some e →
      page_titleGen fetch parse sf ih url = some (ih e)) := by
  constructor
  · intro h
    simp [page_titleGen, h]
  · intro e h
    simp [page_titleGen, h]

theorem page_title_total_no_panic_witness :
    page_titleGen (fun _ => "") (fun body => some body) (fun d _ => d)
      (fun e => e) "http://u" = some "" :=
  (page_title_total_no_panic (fun _ => "") (fun body => some body)
    (fun d _ => d) (fun e => e) "http://u").2 "" rfl

end Listing1704
